import Mathlib

/-!
Verification of the MacroMoney headline-to-rebalance pipeline.

The repository contains four near-duplicate variants of the pipeline:

* macromoney.py (v0.1): keyword cluster detector with a random fallback
  (simulate_macro_cluster) and a clamping rebalancer
  (generate_suggested_portfolio);
* the v2.1 app: classify_news, compute_impact_score (floor 0),
  apply_rebalance over the five fixed asset classes;
* the v2.4 embedding app: compute_severity, horizon_threshold and a
  rebalancer that renormalizes even when the theme has no rule
  (apply_rebalance_v24);
* the v2.4 horizon-aware app: classify_news_v24,
  compute_impact_score_v24 (floor 20), horizon_threshold and the same
  apply_rebalance rule table as v2.1.

Numbers are modelled as exact rationals; Python round(x, 2)
(round-half-to-even) is modelled by round2.  The random draw of
numpy.random.randint(0, 8) in simulate_macro_cluster is modelled by an
explicit rng argument reduced mod 8.
-/

/-- Python round() to the nearest integer, ties going to the even
integer, on exact rationals. -/
def pyRound (x : ℚ) : ℤ :=
  if x - ⌊x⌋ < 1/2 then ⌊x⌋
  else if 1/2 < x - ⌊x⌋ then ⌊x⌋ + 1
  else if ⌊x⌋ % 2 = 0 then ⌊x⌋ else ⌊x⌋ + 1

/-- Python round(x, 2): round to two decimal places. -/
def round2 (x : ℚ) : ℚ := (pyRound (x * 100) : ℚ) / 100

/-- Substring test on character lists: does the needle occur contiguously
inside the haystack?  Models the Python expression needle in haystack. -/
def subList (needle : List Char) : List Char → Bool
  | [] => needle.isEmpty
  | c :: rest => needle.isPrefixOf (c :: rest) || subList needle rest

/-- Lower-cased character list of a string; models Python text.lower()
for the ASCII keyword tables used by the program. -/
def lowerChars (s : String) : List Char := s.data.map Char.toLower

/-- Python keyword in text, with text already lower-cased to a char list. -/
def inText (w : String) (t : List Char) : Bool := subList w.data t

/- ===== v0.1 app (macromoney.py) ===== -/

/-- Cluster keyword table of simulate_macro_cluster (macromoney.py). -/
def keywords : List (ℕ × List String) :=
  [(0, ["inflation", "prices", "cpi", "pmi"]),
   (1, ["oil", "energy", "gas", "opec"]),
   (2, ["war", "conflict", "geopolitics", "sanctions"]),
   (3, ["tech", "ai", "chips", "innovation"]),
   (4, ["dollar", "currency", "forex", "fed"]),
   (5, ["recession", "slowdown", "unemployment"]),
   (6, ["crypto", "bitcoin", "blockchain"]),
   (7, ["rates", "hikes", "treasury", "yields"])]

/-- Does the lower-cased text hit any keyword of the given cluster row? -/
def hitsCluster (t : List Char) (kv : ℕ × List String) : Bool :=
  kv.2.any (fun w => inText w t)

/-- simulate_macro_cluster (macromoney.py): first cluster whose keyword
occurs in the lower-cased text; otherwise numpy.random.randint(0, 8),
modelled by the explicit random draw rng reduced mod 8. -/
def simulate_macro_cluster (text : String) (rng : ℕ) : ℕ :=
  match keywords.find? (hitsCluster (lowerChars text)) with
  | some kv => kv.1
  | none => rng % 8

/-- create_sensitivity_matrix (macromoney.py): per-asset direction for
each of the eight clusters. -/
def sensitivity : List (String × List ℚ) :=
  [("SPY",        [-1, -1, -1, 1, -1, -1, 0, -1]),
   ("IEF",        [-1, 0, 1, -1, 1, 1, 0, 1]),
   ("BTC",        [0, -1, -1, 1, -1, -1, -1, -1]),
   ("QQQ",        [-1, 0, -1, 1, -1, -1, 0, -1]),
   ("SPY_Option", [1, -1, -1, 1, -1, -1, 1, -1]),
   ("ES",         [-1, -1, -1, 1, -1, -1, 0, -1]),
   ("GLD",        [1, 1, 1, -1, 1, 1, 0, 1])]

/-- Weight-shift step of generate_suggested_portfolio (macromoney.py):
for each (asset, weight) row, add direction times 0.03 when the asset is
in the sensitivity matrix.  The Allocation column (weight times capital)
is presentation plumbing and is not modelled. -/
def gspShifted (cluster_id : ℕ) (df : List (String × ℚ)) : List (String × ℚ) :=
  df.map (fun r =>
    match sensitivity.lookup r.1 with
    | some dirs => (r.1, r.2 + (dirs.getD cluster_id 0) * (3/100))
    | none => r)

/-- Clamping step of generate_suggested_portfolio:
df.Weight.clip(lower=0). -/
def gspClipped (cluster_id : ℕ) (df : List (String × ℚ)) : List (String × ℚ) :=
  (gspShifted cluster_id df).map (fun r => (r.1, max r.2 0))

/-- generate_suggested_portfolio (macromoney.py): shift by the
sensitivity direction, clamp negatives to zero, then divide each weight
by the clipped total. -/
def generate_suggested_portfolio (cluster_id : ℕ) (df : List (String × ℚ)) :
    List (String × ℚ) :=
  (gspClipped cluster_id df).map
    (fun r => (r.1, r.2 / ((gspClipped cluster_id df).map (fun s => s.2)).sum))

/- ===== classification tables (v2.1 and v2.4 horizon-aware apps) ===== -/

/-- macro_themes of the v2.1 app (currency list includes liquidity). -/
def macro_themes : List (String × List String) :=
  [("interest_rate", ["interest", "inflation", "cpi", "ppi", "fed", "ecb", "rate hike", "yields"]),
   ("energy", ["oil", "gas", "opec", "energy supply", "pipeline", "crude"]),
   ("tech", ["ai", "technology", "chip", "semiconductor", "software"]),
   ("geopolitical", ["conflict", "war", "border", "sanction", "missile", "tension"]),
   ("fiscal", ["stimulus", "government spending", "budget", "subsidy"]),
   ("currency", ["forex", "currency", "yen", "yuan", "liquidity", "dollar index"]),
   ("labor", ["unemployment", "jobs", "wage", "labor market"]),
   ("crypto", ["bitcoin", "crypto", "ethereum", "token", "blockchain"]),
   ("political_shock", ["assassination", "prime minister", "president", "resignation", "leader death"])]

/-- macro_themes of the v2.4 horizon-aware app (no liquidity keyword). -/
def macro_themes_v24 : List (String × List String) :=
  [("interest_rate", ["interest", "inflation", "cpi", "ppi", "fed", "ecb", "rate hike", "yields"]),
   ("energy", ["oil", "gas", "opec", "energy supply", "pipeline", "crude"]),
   ("tech", ["ai", "technology", "chip", "semiconductor", "software"]),
   ("geopolitical", ["conflict", "war", "border", "sanction", "missile", "tension"]),
   ("fiscal", ["stimulus", "government spending", "budget", "subsidy"]),
   ("currency", ["forex", "currency", "yen", "yuan", "dollar index"]),
   ("labor", ["unemployment", "jobs", "wage", "labor market"]),
   ("crypto", ["bitcoin", "crypto", "ethereum", "token", "blockchain"]),
   ("political_shock", ["assassination", "prime minister", "president", "resignation", "leader death"])]

/-- micro_themes, identical in the v2.1 and v2.4 horizon-aware apps. -/
def micro_themes : List (String × List String) :=
  [("earnings", ["earnings", "quarterly", "revenue", "profit", "guidance"]),
   ("company_specific", ["launch", "ceo", "merger", "acquisition", "company"]),
   ("sector_only", ["retail sales", "chip demand", "housing data"])]

/-- irrelevant_keywords, identical in the v2.1 and v2.4 horizon-aware apps. -/
def irrelevant_keywords : List String :=
  ["accident", "celebrity", "movie", "festival", "sports", "award", "weather", "crime"]

/-- severity_weights of the v2.1 app: additive point values. -/
def severity_weights : List (String × ℚ) :=
  [("crisis", 30), ("war", 30), ("sanction", 25), ("default", 30),
   ("surge", 20), ("collapse", 20), ("emergency", 20),
   ("hike", 15), ("cut", 15), ("inflation", 15),
   ("mild", 5), ("slight", 5)]

/-- severity_weights of the v2.4 horizon-aware app: multipliers. -/
def severity_weights_v24 : List (String × ℚ) :=
  [("crisis", 3/2), ("war", 3/2), ("sanction", 13/10), ("default", 3/2),
   ("surge", 6/5), ("collapse", 6/5), ("emergency", 6/5),
   ("hike", 11/10), ("cut", 11/10), ("inflation", 11/10),
   ("mild", 1), ("slight", 1)]

/-- Does the lower-cased text hit any keyword of the given theme row? -/
def hitsTheme (t : List Char) (kv : String × List String) : Bool :=
  kv.2.any (fun w => inText w t)

/-- classify_news of the v2.1 app: irrelevant keywords first, then micro
themes, then macro themes, first match wins in table order. -/
def classify_news (text : String) : String × String :=
  if irrelevant_keywords.any (fun w => inText w (lowerChars text)) then
    ("irrelevant", "Not market-affecting")
  else
    match micro_themes.find? (hitsTheme (lowerChars text)) with
    | some kv => ("micro", kv.1)
    | none =>
      match macro_themes.find? (hitsTheme (lowerChars text)) with
      | some kv => ("macro", kv.1)
      | none => ("irrelevant", "No macro/micro signals detected")

/-- classify_news of the v2.4 horizon-aware app: same precedence, its own
macro table and irrelevant reason string. -/
def classify_news_v24 (text : String) : String × String :=
  if irrelevant_keywords.any (fun w => inText w (lowerChars text)) then
    ("irrelevant", "Local / Irrelevant News")
  else
    match micro_themes.find? (hitsTheme (lowerChars text)) with
    | some kv => ("micro", kv.1)
    | none =>
      match macro_themes_v24.find? (hitsTheme (lowerChars text)) with
      | some kv => ("macro", kv.1)
      | none => ("irrelevant", "No macro/micro signals detected")

/-- compute_impact_score of the v2.1 app: sum the point value of every
severity keyword occurring in the lower-cased text, then cap at 100. -/
def compute_impact_score (text : String) : ℚ :=
  min (severity_weights.foldl
    (fun score kv => if inText kv.1 (lowerChars text) then score + kv.2 else score) 0) 100

/-- compute_impact_score of the v2.4 horizon-aware app: add
20 * (mult - 1 + 1) per matching keyword, then clamp into [20, 100]. -/
def compute_impact_score_v24 (text : String) : ℚ :=
  min (max (severity_weights_v24.foldl
    (fun score kv => if inText kv.1 (lowerChars text) then score + 20 * (kv.2 - 1 + 1) else score)
    0) 20) 100

/- ===== severity and gate (v2.4 apps) ===== -/

/-- compute_severity of the v2.4 embedding app: scale the primary
similarity to 0-100, boost 1.15 for a secondary theme, 1.2 for negative
sentiment, damp 0.75 for horizons over 3 years or boost 1.15 under
1 year, then clamp into [20, 100]. -/
def compute_severity (primary_score secondary_score sentiment horizon_years : ℚ) : ℚ :=
  min 100 (max 20
    ((if horizon_years > 3 then (3/4 : ℚ)
      else if horizon_years < 1 then 23/20 else 1) *
     ((if sentiment < 0 then (6/5 : ℚ) else 1) *
      ((if secondary_score > 0 then (23/20 : ℚ) else 1) *
       (primary_score * 100)))))

/-- horizon_threshold, identical in both v2.4 apps: severity threshold
20 for horizons up to 1 year, 40 up to 3 years, 70 beyond. -/
def horizon_threshold (severity horizon_years : ℚ) : Bool :=
  if horizon_years ≤ 1 then decide (severity ≥ 20)
  else if horizon_years ≤ 3 then decide (severity ≥ 40)
  else decide (severity ≥ 70)

/- ===== rebalance engines ===== -/

/-- Portfolio: the five fixed asset-class weights of the v2.x apps. -/
structure Portfolio where
  equities : ℚ
  bonds : ℚ
  etfs : ℚ
  crypto : ℚ
  commodities : ℚ
deriving DecidableEq, Repr

/-- Sum of the five weights. -/
def Portfolio.sum (p : Portfolio) : ℚ :=
  p.equities + p.bonds + p.etfs + p.crypto + p.commodities

/-- Add a delta to the named asset weight; an unknown asset name leaves
the portfolio unchanged (the guard of the v2.4 horizon-aware variant;
all static rule tables only name the five known assets). -/
def Portfolio.addTo (p : Portfolio) (asset : String) (d : ℚ) : Portfolio :=
  if asset = "Equities" then { p with equities := p.equities + d }
  else if asset = "Bonds" then { p with bonds := p.bonds + d }
  else if asset = "ETFs" then { p with etfs := p.etfs + d }
  else if asset = "Crypto" then { p with crypto := p.crypto + d }
  else if asset = "Commodities" then { p with commodities := p.commodities + d }
  else p

/-- Apply every (asset, shift) pair of a rule, scaled by the intensity. -/
def applyDeltas (p : Portfolio) (rule : List (String × ℚ)) (intensity : ℚ) : Portfolio :=
  rule.foldl (fun acc kv => acc.addTo kv.1 (kv.2 * intensity)) p

/-- Apply a function to all five weights. -/
def Portfolio.map (p : Portfolio) (f : ℚ → ℚ) : Portfolio :=
  ⟨f p.equities, f p.bonds, f p.etfs, f p.crypto, f p.commodities⟩

/-- macro_rebalance_rules, identical in the v2.1 and v2.4 horizon-aware
apps: signed per-asset deltas for each macro theme. -/
def macro_rebalance_rules : List (String × List (String × ℚ)) :=
  [("interest_rate", [("Equities", -10), ("Bonds", 10)]),
   ("energy", [("Commodities", 15), ("Equities", -5)]),
   ("tech", [("Equities", 10)]),
   ("geopolitical", [("Bonds", 10), ("Commodities", 5), ("Equities", -10)]),
   ("fiscal", [("Equities", 10)]),
   ("currency", [("Bonds", 5), ("Crypto", -10)]),
   ("labor", [("Equities", -5), ("Bonds", 5)]),
   ("crypto", [("Crypto", 15)]),
   ("political_shock", [("Bonds", 10), ("Equities", -10)])]

/-- rebalance_rules of the v2.4 embedding app. -/
def rebalance_rules : List (String × List (String × ℚ)) :=
  [("interest_rates", [("Equities", -10), ("Bonds", 15)]),
   ("energy", [("Commodities", 15)]),
   ("tech", [("Equities", 12)]),
   ("geopolitical", [("Bonds", 10), ("Commodities", 8), ("Equities", -10)]),
   ("fiscal", [("Equities", 10)]),
   ("currency_fx", [("Crypto", -10), ("Bonds", 5)]),
   ("labor", [("Equities", -5), ("Bonds", 5)]),
   ("crypto", [("Crypto", 15)]),
   ("political_shock", [("Bonds", 12), ("Equities", -12)]),
   ("commodities", [("Commodities", 15)])]

/-- apply_rebalance of the v2.1 and v2.4 horizon-aware apps,
parameterized by the rule table: copy the input; an unknown theme
returns the copy unchanged; otherwise add shift * intensity per rule
entry, then renormalize each weight to total / 100 rounded to two
decimals.  A zero post-rule total makes the Python division raise
ZeroDivisionError, modelled as none. -/
def applyRebalanceCore (rules : List (String × List (String × ℚ)))
    (base : Portfolio) (theme : String) (intensity_factor : ℚ) : Option Portfolio :=
  match rules.lookup theme with
  | none => some base
  | some rule =>
      let new := applyDeltas base rule intensity_factor
      if new.sum = 0 then none
      else some (new.map (fun w => round2 (w / new.sum * 100)))

/-- apply_rebalance of the v2.1 and v2.4 horizon-aware apps (their code
and rule tables are identical). -/
def apply_rebalance (base : Portfolio) (theme : String) (intensity_factor : ℚ) :
    Option Portfolio :=
  applyRebalanceCore macro_rebalance_rules base theme intensity_factor

/-- apply_rebalance of the v2.4 embedding app: it takes the raw severity
(intensity is severity / 100) and, unlike the other two variants, it
renormalizes and rounds even when the theme has no rule. -/
def apply_rebalance_v24 (weights : Portfolio) (theme : String) (severity : ℚ) :
    Option Portfolio :=
  let new :=
    match rebalance_rules.lookup theme with
    | some rule => applyDeltas weights rule (severity / 100)
    | none => weights
  if new.sum = 0 then none
  else some (new.map (fun w => round2 (w / new.sum * 100)))

/-- Post-rule weight vector of apply_rebalance, before renormalization. -/
def postRuleWeights (rules : List (String × List (String × ℚ)))
    (base : Portfolio) (theme : String) (intensity_factor : ℚ) : Portfolio :=
  match rules.lookup theme with
  | none => base
  | some rule => applyDeltas base rule intensity_factor

/-- Post-rule weight total of apply_rebalance. -/
def postRuleTotal (rules : List (String × List (String × ℚ)))
    (base : Portfolio) (theme : String) (intensity_factor : ℚ) : ℚ :=
  (postRuleWeights rules base theme intensity_factor).sum

/-- Post-rule weight vector of the v2.4 embedding apply_rebalance. -/
def postRuleWeights_v24 (weights : Portfolio) (theme : String) (severity : ℚ) : Portfolio :=
  match rebalance_rules.lookup theme with
  | some rule => applyDeltas weights rule (severity / 100)
  | none => weights

/-- Post-rule weight total of the v2.4 embedding apply_rebalance. -/
def postRuleTotal_v24 (weights : Portfolio) (theme : String) (severity : ℚ) : ℚ :=
  (postRuleWeights_v24 weights theme severity).sum

/-- Main analysis flow of the v2.4 horizon-aware app: stop on an
irrelevant classification (micro events continue in this variant), stop
when the horizon gate fails, otherwise rebalance with intensity
impact / 100. -/
def analyze_v24 (headline : String) (weights : Portfolio) (horizon_years : ℚ) :
    Option Portfolio :=
  if (classify_news_v24 headline).1 = "irrelevant" then none
  else if horizon_threshold (compute_impact_score_v24 headline) horizon_years then
    apply_rebalance weights (classify_news_v24 headline).2
      (compute_impact_score_v24 headline / 100)
  else none

/-- A weight representable at two decimal places (what Python round(w, 2)
leaves fixed). -/
def twoDecimal (w : ℚ) : Prop := ∃ n : ℤ, w = (n : ℚ) / 100

/- ===== rounding lemmas ===== -/

lemma pyRound_abs_le (x : ℚ) : |(pyRound x : ℚ) - x| ≤ 1/2 := by
  have hfl : ((⌊x⌋ : ℤ) : ℚ) ≤ x := Int.floor_le x
  have hfu : x < (⌊x⌋ : ℚ) + 1 := Int.lt_floor_add_one x
  unfold pyRound
  split_ifs with h1 h2 h3
  · rw [abs_le]; constructor <;> linarith
  · rw [abs_le]; push_cast; constructor <;> linarith
  · rw [abs_le]; constructor <;> linarith
  · rw [abs_le]; push_cast; constructor <;> linarith

lemma round2_abs_le (x : ℚ) : |round2 x - x| ≤ 1/200 := by
  have h := pyRound_abs_le (x * 100)
  unfold round2
  have e : (pyRound (x * 100) : ℚ) / 100 - x = ((pyRound (x * 100) : ℚ) - x * 100) / 100 := by
    ring
  rw [e, abs_div, show |(100:ℚ)| = 100 by norm_num]
  linarith

lemma pyRound_lo (x : ℚ) (n : ℤ) (h1 : (n:ℚ) ≤ x) (h2 : x < (n:ℚ) + 1/2) :
    pyRound x = n := by
  have hf : ⌊x⌋ = n := Int.floor_eq_iff.mpr ⟨h1, by linarith⟩
  unfold pyRound
  rw [hf, if_pos (by linarith)]

lemma pyRound_hi (x : ℚ) (n : ℤ) (h1 : (n:ℚ) - 1/2 < x) (h2 : x < n) :
    pyRound x = n := by
  have hf : ⌊x⌋ = n - 1 := Int.floor_eq_iff.mpr ⟨by push_cast; linarith, by push_cast; linarith⟩
  unfold pyRound
  rw [hf, if_neg (by push_cast; linarith), if_pos (by push_cast; linarith)]
  ring

lemma round2_lo (x : ℚ) (n : ℤ) (h1 : (n:ℚ) ≤ x * 100) (h2 : x * 100 < (n:ℚ) + 1/2) :
    round2 x = (n : ℚ) / 100 := by
  unfold round2; rw [pyRound_lo (x * 100) n h1 h2]

lemma round2_hi (x : ℚ) (n : ℤ) (h1 : (n:ℚ) - 1/2 < x * 100) (h2 : x * 100 < (n:ℚ)) :
    round2 x = (n : ℚ) / 100 := by
  unfold round2; rw [pyRound_hi (x * 100) n h1 h2]

lemma round2_of_twoDecimal (w : ℚ) (h : twoDecimal w) : round2 w = w := by
  obtain ⟨n, rfl⟩ := h
  have e : (n : ℚ) / 100 * 100 = (n : ℚ) := by field_simp
  unfold round2
  rw [e, pyRound_lo (n : ℚ) n (le_refl _) (by linarith)]

/-- Renormalizing and rounding leaves the total within 5 * 0.005 = 0.025
of 100. -/
lemma roundedNormalizedSum (p : Portfolio) (h : p.sum ≠ 0) :
    |(p.map (fun w => round2 (w / p.sum * 100))).sum - 100| ≤ 1/40 := by
  have h1 := round2_abs_le (p.equities / p.sum * 100)
  have h2 := round2_abs_le (p.bonds / p.sum * 100)
  have h3 := round2_abs_le (p.etfs / p.sum * 100)
  have h4 := round2_abs_le (p.crypto / p.sum * 100)
  have h5 := round2_abs_le (p.commodities / p.sum * 100)
  have hx : p.equities / p.sum * 100 + p.bonds / p.sum * 100 + p.etfs / p.sum * 100 +
      p.crypto / p.sum * 100 + p.commodities / p.sum * 100 = 100 := by
    have : p.equities + p.bonds + p.etfs + p.crypto + p.commodities = p.sum := rfl
    field_simp
    linarith [this]
  rw [abs_le] at h1 h2 h3 h4 h5 ⊢
  simp only [Portfolio.map, Portfolio.sum] at *
  constructor <;> linarith

lemma applyRebalanceCore_lookup_some (rules : List (String × List (String × ℚ)))
    (base : Portfolio) (theme : String) (i : ℚ) (rule : List (String × ℚ))
    (hl : rules.lookup theme = some rule) (hne : (applyDeltas base rule i).sum ≠ 0) :
    applyRebalanceCore rules base theme i =
      some ((applyDeltas base rule i).map
        (fun w => round2 (w / (applyDeltas base rule i).sum * 100))) := by
  unfold applyRebalanceCore
  rw [hl]
  simp [hne]

/- ===== C4: horizon gate brackets ===== -/

/-- C4: horizon_threshold returns true exactly when the severity reaches
the bracket threshold (20 for horizons up to 1 year, 40 up to 3 years,
70 beyond), and the four boundary cases behave as stated: severity 20 at
horizon 1 passes, 19.99 at horizon 1 fails, 40 at horizon 2 passes,
69.99 at horizon 5 fails. -/
theorem horizon_threshold_brackets :
    (∀ s h : ℚ, horizon_threshold s h = true ↔
      ((h ≤ 1 ∧ 20 ≤ s) ∨ (1 < h ∧ h ≤ 3 ∧ 40 ≤ s) ∨ (3 < h ∧ 70 ≤ s))) ∧
    horizon_threshold 20 1 = true ∧
    horizon_threshold (1999/100) 1 = false ∧
    horizon_threshold 40 2 = true ∧
    horizon_threshold (6999/100) 5 = false := by
  have hmain : ∀ s h : ℚ, horizon_threshold s h = true ↔
      ((h ≤ 1 ∧ 20 ≤ s) ∨ (1 < h ∧ h ≤ 3 ∧ 40 ≤ s) ∨ (3 < h ∧ 70 ≤ s)) := by
    intro s h
    unfold horizon_threshold
    split_ifs with h1 h2
    · simp only [decide_eq_true_eq, ge_iff_le]
      constructor
      · exact fun hs => Or.inl ⟨h1, hs⟩
      · rintro (⟨_, hs⟩ | ⟨hlt, _, _⟩ | ⟨hlt, _⟩)
        · exact hs
        · linarith
        · linarith
    · push_neg at h1
      simp only [decide_eq_true_eq, ge_iff_le]
      constructor
      · exact fun hs => Or.inr (Or.inl ⟨h1, h2, hs⟩)
      · rintro (⟨hle, _⟩ | ⟨_, _, hs⟩ | ⟨hlt, _⟩)
        · linarith
        · exact hs
        · linarith
    · push_neg at h1 h2
      simp only [decide_eq_true_eq, ge_iff_le]
      constructor
      · exact fun hs => Or.inr (Or.inr ⟨h2, hs⟩)
      · rintro (⟨hle, _⟩ | ⟨_, hle, _⟩ | ⟨_, hs⟩)
        · linarith
        · linarith
        · exact hs
  refine ⟨hmain, ?_, ?_, ?_, ?_⟩
  · rw [hmain]; norm_num
  · rw [Bool.eq_false_iff, ne_eq, hmain]; norm_num
  · rw [hmain]; norm_num
  · rw [Bool.eq_false_iff, ne_eq, hmain]; norm_num

/- ===== C7: severity scorers are bounded ===== -/

lemma foldl_if_add_nonneg (t : List Char) (l : List (String × ℚ)) (g : ℚ → ℚ) (acc : ℚ)
    (hacc : 0 ≤ acc) (hl : ∀ kv ∈ l, 0 ≤ g kv.2) :
    0 ≤ l.foldl (fun score kv => if inText kv.1 t then score + g kv.2 else score) acc := by
  induction l generalizing acc with
  | nil => exact hacc
  | cons a as ih =>
      simp only [List.foldl_cons]
      apply ih
      · split_ifs with hc
        · have := hl a (List.mem_cons_self a as)
          linarith
        · exact hacc
      · exact fun kv hkv => hl kv (List.mem_cons_of_mem a hkv)

/-- Shared bound for the floor-20 impact scorer of the v2.4 horizon-aware
app. -/
lemma impact_v24_bounds (text : String) :
    20 ≤ compute_impact_score_v24 text ∧ compute_impact_score_v24 text ≤ 100 := by
  unfold compute_impact_score_v24
  constructor
  · exact le_min (le_max_right _ _) (by norm_num)
  · exact min_le_right _ _

/-- C7: every severity scorer stays inside its declared range whatever
the headline (or similarity scores, sentiment and horizon): the v2.1
additive scorer lands in [0, 100], the v2.4 horizon-aware scorer in
[20, 100], and the v2.4 embedding compute_severity in [20, 100]. -/
theorem severity_scores_bounded :
    (∀ text : String,
      0 ≤ compute_impact_score text ∧ compute_impact_score text ≤ 100) ∧
    (∀ text : String,
      20 ≤ compute_impact_score_v24 text ∧ compute_impact_score_v24 text ≤ 100) ∧
    (∀ p s sent h : ℚ,
      20 ≤ compute_severity p s sent h ∧ compute_severity p s sent h ≤ 100) := by
  refine ⟨?_, fun text => impact_v24_bounds text, ?_⟩
  · intro text
    unfold compute_impact_score
    constructor
    · refine le_min ?_ (by norm_num)
      have := foldl_if_add_nonneg (lowerChars text) severity_weights (fun q => q) 0 le_rfl
        (by decide)
      simpa using this
    · exact min_le_right _ _
  · intro p s sent h
    unfold compute_severity
    constructor
    · exact le_min (by norm_num) (le_max_left _ _)
    · exact min_le_left _ _

/- ===== C8: irrelevant keywords take precedence ===== -/

/-- C8: a headline whose lower-cased text contains an irrelevant keyword
(and, as in the claim, also a macro keyword) is classified as tier
irrelevant by both lexical classifiers: the irrelevant check runs before
the micro and macro checks. -/
theorem classify_news_irrelevant_precedence (text : String)
    (hirr : ∃ w ∈ irrelevant_keywords, inText w (lowerChars text) = true)
    (_hmac : ∃ kv ∈ macro_themes, hitsTheme (lowerChars text) kv = true)
    (_hmac24 : ∃ kv ∈ macro_themes_v24, hitsTheme (lowerChars text) kv = true) :
    (classify_news text).1 = "irrelevant" ∧ (classify_news_v24 text).1 = "irrelevant" := by
  have hany : irrelevant_keywords.any (fun w => inText w (lowerChars text)) = true :=
    List.any_eq_true.mpr hirr
  constructor
  · unfold classify_news
    rw [if_pos hany]
  · unfold classify_news_v24
    rw [if_pos hany]

/-- Boundary instance for C8: the example headline of the specification
contains the irrelevant keyword celebrity and the macro keyword fed, and
both classifiers return tier irrelevant on it. -/
theorem classify_news_irrelevant_precedence_witness :
    (classify_news "Fed hikes rates amid celebrity gossip").1 = "irrelevant" ∧
    (classify_news_v24 "Fed hikes rates amid celebrity gossip").1 = "irrelevant" :=
  classify_news_irrelevant_precedence "Fed hikes rates amid celebrity gossip"
    (by decide) (by decide) (by decide)

/- ===== C5: determinism of the theme classifiers ===== -/

/-- C5 (amended): the v0.1 cluster classifier is independent of the
random draw exactly on headlines that contain at least one cluster
keyword; classify_news and classify_news_v24 are pure functions of the
headline and the static tables by construction. -/
theorem simulate_macro_cluster_deterministic_on_hit (text : String) (r1 r2 : ℕ)
    (h : ∃ kv ∈ keywords, hitsCluster (lowerChars text) kv = true) :
    simulate_macro_cluster text r1 = simulate_macro_cluster text r2 := by
  have hsome : (keywords.find? (hitsCluster (lowerChars text))).isSome := by
    rw [List.find?_isSome]; exact h
  obtain ⟨kv, hkv⟩ := Option.isSome_iff_exists.mp hsome
  unfold simulate_macro_cluster
  rw [hkv]

/-- Instance for C5: a headline containing the cluster keyword inflation
gets the same cluster under two different random draws. -/
theorem simulate_macro_cluster_deterministic_on_hit_witness :
    simulate_macro_cluster "Inflation fears rise" 0 =
      simulate_macro_cluster "Inflation fears rise" 7 :=
  simulate_macro_cluster_deterministic_on_hit "Inflation fears rise" 0 7 (by decide)

/-- Counterexample for C5 as stated: on a headline with no cluster
keyword, simulate_macro_cluster falls back to the random draw, so two
runs with different draws disagree — the v0.1 classifier is not a pure
function of the headline text and the static tables alone. -/
theorem simulate_macro_cluster_random_fallback_counterexample :
    ¬ (simulate_macro_cluster "hello world" 0 = simulate_macro_cluster "hello world" 1) := by
  decide


/- ===== shared equation lemmas for the rebalance engines ===== -/

lemma postRuleTotal_eq (rules : List (String × List (String × ℚ)))
    (base : Portfolio) (theme : String) (i : ℚ) (rule : List (String × ℚ))
    (hl : rules.lookup theme = some rule) :
    postRuleTotal rules base theme i = (applyDeltas base rule i).sum := by
  unfold postRuleTotal postRuleWeights
  rw [hl]

lemma applyRebalanceCore_eq_of_lookup (rules : List (String × List (String × ℚ)))
    (base : Portfolio) (theme : String) (i : ℚ) (rule : List (String × ℚ))
    (hl : rules.lookup theme = some rule) :
    applyRebalanceCore rules base theme i =
      (if (applyDeltas base rule i).sum = 0 then none
       else some ((applyDeltas base rule i).map
         (fun w => round2 (w / (applyDeltas base rule i).sum * 100)))) := by
  unfold applyRebalanceCore
  rw [hl]

/- ===== C9: themes with no rule entry ===== -/

lemma Portfolio.addTo_zero (p : Portfolio) (a : String) : p.addTo a 0 = p := by
  obtain ⟨e, b, t, c, m⟩ := p
  unfold Portfolio.addTo
  split_ifs <;> simp

lemma applyDeltas_zero (p : Portfolio) (rule : List (String × ℚ)) :
    applyDeltas p rule 0 = p := by
  induction rule generalizing p with
  | nil => rfl
  | cons a as ih =>
      have h1 : applyDeltas p (a :: as) 0 = applyDeltas (p.addTo a.1 (a.2 * 0)) as 0 := rfl
      rw [h1, mul_zero, Portfolio.addTo_zero]
      exact ih p

/-- C9 (amended): in the v2.1 and v2.4 horizon-aware apps, a theme with
no entry in the rule table returns the unmodified copy of the input, with
no renormalization or rounding; the v2.4 embedding app applies no delta
for an unknown theme but still renormalizes and rounds every weight. -/
theorem apply_rebalance_unknown_theme :
    (∀ (base : Portfolio) (theme : String) (i : ℚ),
        macro_rebalance_rules.lookup theme = none →
        apply_rebalance base theme i = some base) ∧
    (∀ (weights : Portfolio) (theme : String) (severity : ℚ),
        rebalance_rules.lookup theme = none → weights.sum ≠ 0 →
        apply_rebalance_v24 weights theme severity =
          some (weights.map (fun w => round2 (w / weights.sum * 100)))) := by
  constructor
  · intro base theme i hl
    unfold apply_rebalance applyRebalanceCore
    rw [hl]
  · intro w theme s hl hs
    unfold apply_rebalance_v24
    rw [hl]
    simp [hs]

/-- Instance for C9: the micro theme earnings has no rule, so the shared
apply_rebalance returns the input unchanged, while the v2.4 embedding
variant still renormalizes (here the input is already normalized). -/
theorem apply_rebalance_unknown_theme_witness :
    apply_rebalance ⟨20, 20, 20, 20, 20⟩ "earnings" 1 = some ⟨20, 20, 20, 20, 20⟩ ∧
    apply_rebalance_v24 ⟨20, 20, 20, 20, 20⟩ "foo" 50 =
      some ((Portfolio.mk 20 20 20 20 20).map
        (fun w => round2 (w / (Portfolio.mk 20 20 20 20 20).sum * 100))) :=
  ⟨apply_rebalance_unknown_theme.1 ⟨20, 20, 20, 20, 20⟩ "earnings" 1 (by rfl),
   apply_rebalance_unknown_theme.2 ⟨20, 20, 20, 20, 20⟩ "foo" 50 (by rfl)
     (by norm_num [Portfolio.sum])⟩

/-- Counterexample for C9 as stated: for the unknown theme foo the v2.4
embedding apply_rebalance does not return the unmodified copy — it still
renormalizes the weights to total 100, so an input summing to 200 comes
back halved. -/
theorem apply_rebalance_v24_renormalizes_counterexample :
    apply_rebalance_v24 ⟨50, 150, 0, 0, 0⟩ "foo" 50 = some ⟨25, 75, 0, 0, 0⟩ ∧
    (Portfolio.mk 25 75 0 0 0) ≠ ⟨50, 150, 0, 0, 0⟩ := by
  constructor
  · have hl : rebalance_rules.lookup "foo" = none := by rfl
    have hne : (Portfolio.mk 50 150 0 0 0).sum ≠ 0 := by norm_num [Portfolio.sum]
    have e1 : round2 (25 : ℚ) = 25 := by
      rw [round2_lo _ 2500 (by norm_num) (by norm_num)]; norm_num
    have e2 : round2 (75 : ℚ) = 75 := by
      rw [round2_lo _ 7500 (by norm_num) (by norm_num)]; norm_num
    have e3 : round2 (0 : ℚ) = 0 := by
      rw [round2_lo _ 0 (by norm_num) (by norm_num)]; norm_num
    rw [apply_rebalance_unknown_theme.2 ⟨50, 150, 0, 0, 0⟩ "foo" 50 hl hne]
    norm_num [Portfolio.sum, Portfolio.map, e1, e2, e3]
  · intro h
    rw [Portfolio.mk.injEq] at h
    norm_num at h

/- ===== C6: zero intensity ===== -/

/-- C6 (amended): with intensity 0 the shared apply_rebalance returns the
input portfolio unchanged for every theme, provided the weights sum to
100 and each weight is representable at two decimal places (otherwise the
final round-to-two-decimals step alters the copy). -/
theorem apply_rebalance_zero_intensity (base : Portfolio) (theme : String)
    (h100 : base.sum = 100)
    (he : twoDecimal base.equities) (hb : twoDecimal base.bonds)
    (ht : twoDecimal base.etfs) (hc : twoDecimal base.crypto)
    (hm : twoDecimal base.commodities) :
    apply_rebalance base theme 0 = some base := by
  have hfix : ∀ w : ℚ, twoDecimal w → round2 (w / 100 * 100) = w := by
    intro w hw
    rw [div_mul_cancel₀ w (show (100:ℚ) ≠ 0 by norm_num)]
    exact round2_of_twoDecimal w hw
  unfold apply_rebalance
  cases hl : macro_rebalance_rules.lookup theme with
  | none =>
      unfold applyRebalanceCore
      rw [hl]
  | some rule =>
      rw [applyRebalanceCore_eq_of_lookup macro_rebalance_rules base theme 0 rule hl]
      rw [applyDeltas_zero, h100]
      rw [if_neg (by norm_num : ¬(100:ℚ) = 0)]
      obtain ⟨e, b, t, c, m⟩ := base
      simp only [Portfolio.map, Option.some.injEq, Portfolio.mk.injEq]
      exact ⟨hfix e he, hfix b hb, hfix t ht, hfix c hc, hfix m hm⟩

/-- Instance for C6: intensity 0 on the equal-weight portfolio with the
ruled theme tech is a no-op. -/
theorem apply_rebalance_zero_intensity_witness :
    apply_rebalance ⟨20, 20, 20, 20, 20⟩ "tech" 0 = some ⟨20, 20, 20, 20, 20⟩ :=
  apply_rebalance_zero_intensity ⟨20, 20, 20, 20, 20⟩ "tech"
    (by norm_num [Portfolio.sum])
    ⟨2000, by norm_num⟩ ⟨2000, by norm_num⟩ ⟨2000, by norm_num⟩
    ⟨2000, by norm_num⟩ ⟨2000, by norm_num⟩

/-- Counterexample for C6 as stated: a portfolio summing to 100 whose
weights carry more than two decimals is altered by the rounding step even
at intensity 0, so rebalance(P, theme, 0) = P fails for it. -/
theorem zero_intensity_rounding_counterexample :
    (Portfolio.mk (20 + 4/1000) (20 - 4/1000) 20 20 20).sum = 100 ∧
    apply_rebalance ⟨20 + 4/1000, 20 - 4/1000, 20, 20, 20⟩ "interest_rate" 0 ≠
      some ⟨20 + 4/1000, 20 - 4/1000, 20, 20, 20⟩ := by
  have hsum : (Portfolio.mk (20 + 4/1000) (20 - 4/1000) 20 20 20).sum = 100 := by
    norm_num [Portfolio.sum]
  refine ⟨hsum, ?_⟩
  have hl : macro_rebalance_rules.lookup "interest_rate" =
      some [("Equities", -10), ("Bonds", 10)] := by rfl
  have heval : apply_rebalance ⟨20 + 4/1000, 20 - 4/1000, 20, 20, 20⟩ "interest_rate" 0 =
      some ⟨20, 20, 20, 20, 20⟩ := by
    have e1 : round2 (5001/250 : ℚ) = 20 := by
      rw [round2_lo _ 2000 (by norm_num) (by norm_num)]; norm_num
    have e2 : round2 (4999/250 : ℚ) = 20 := by
      rw [round2_hi _ 2000 (by norm_num) (by norm_num)]; norm_num
    have e3 : round2 (20 : ℚ) = 20 := by
      rw [round2_lo _ 2000 (by norm_num) (by norm_num)]; norm_num
    unfold apply_rebalance
    rw [applyRebalanceCore_eq_of_lookup macro_rebalance_rules _ "interest_rate" 0
      [("Equities", -10), ("Bonds", 10)] hl]
    rw [applyDeltas_zero, hsum]
    rw [if_neg (by norm_num : ¬(100:ℚ) = 0)]
    norm_num [Portfolio.map, e1, e2, e3]
  rw [heval]
  intro h
  rw [Option.some.injEq, Portfolio.mk.injEq] at h
  norm_num at h

/- ===== C3: degenerate post-rule totals ===== -/

/-- C3 (amended): apply_rebalance performs no degenerate-total check.
For a theme with a rule, a negative post-rule total is renormalized (the
division by the negative total inverts all signs) instead of being
rejected with a distinct error; only an exactly zero total aborts, as an
untyped Python ZeroDivisionError. -/
theorem apply_rebalance_degenerate_total (rules : List (String × List (String × ℚ)))
    (base : Portfolio) (theme : String) (i : ℚ)
    (hrule : (rules.lookup theme).isSome = true) :
    (postRuleTotal rules base theme i < 0 →
      (applyRebalanceCore rules base theme i).isSome = true) ∧
    (postRuleTotal rules base theme i = 0 →
      applyRebalanceCore rules base theme i = none) := by
  obtain ⟨rule, hl⟩ := Option.isSome_iff_exists.mp hrule
  have hw := postRuleTotal_eq rules base theme i rule hl
  have hcore := applyRebalanceCore_eq_of_lookup rules base theme i rule hl
  constructor
  · intro hneg
    rw [hw] at hneg
    rw [hcore, if_neg (ne_of_lt hneg)]
    rfl
  · intro hz
    rw [hw] at hz
    rw [hcore, if_pos hz]

/-- Instance for C3: a (degenerate) input with post-rule total -2 is not
rejected — apply_rebalance returns a result. -/
theorem apply_rebalance_degenerate_total_witness :
    (apply_rebalance ⟨8, -10, 0, 0, 0⟩ "interest_rate" 1).isSome = true :=
  (apply_rebalance_degenerate_total macro_rebalance_rules ⟨8, -10, 0, 0, 0⟩
    "interest_rate" 1 (by rfl)).1
    (by
      have hl : macro_rebalance_rules.lookup "interest_rate" =
          some [("Equities", -10), ("Bonds", 10)] := by rfl
      have hd : applyDeltas ⟨8, -10, 0, 0, 0⟩ [("Equities", -10), ("Bonds", 10)] 1 =
          ⟨-2, 0, 0, 0, 0⟩ := by
        simp [applyDeltas, Portfolio.addTo]
        norm_num
      rw [postRuleTotal_eq macro_rebalance_rules ⟨8, -10, 0, 0, 0⟩ "interest_rate" 1
        [("Equities", -10), ("Bonds", 10)] hl, hd]
      norm_num [Portfolio.sum])

/-- Counterexample for C3 as stated: on a post-rule total of -2 the code
divides by the negative total and returns a sign-inverted allocation
(100% equities from a negative equity weight) instead of rejecting with a
DegenerateRenormalization error. -/
theorem apply_rebalance_negative_total_counterexample :
    postRuleTotal macro_rebalance_rules ⟨8, -10, 0, 0, 0⟩ "interest_rate" 1 = -2 ∧
    apply_rebalance ⟨8, -10, 0, 0, 0⟩ "interest_rate" 1 = some ⟨100, 0, 0, 0, 0⟩ := by
  have hl : macro_rebalance_rules.lookup "interest_rate" =
      some [("Equities", -10), ("Bonds", 10)] := by rfl
  have hd : applyDeltas ⟨8, -10, 0, 0, 0⟩ [("Equities", -10), ("Bonds", 10)] 1 =
      ⟨-2, 0, 0, 0, 0⟩ := by
    simp [applyDeltas, Portfolio.addTo]
    norm_num
  constructor
  · rw [postRuleTotal_eq macro_rebalance_rules ⟨8, -10, 0, 0, 0⟩ "interest_rate" 1
      [("Equities", -10), ("Bonds", 10)] hl, hd]
    norm_num [Portfolio.sum]
  · have e1 : round2 (100 : ℚ) = 100 := by
      rw [round2_lo _ 10000 (by norm_num) (by norm_num)]; norm_num
    have e2 : round2 (0 : ℚ) = 0 := by
      rw [round2_lo _ 0 (by norm_num) (by norm_num)]; norm_num
    unfold apply_rebalance
    rw [applyRebalanceCore_eq_of_lookup macro_rebalance_rules ⟨8, -10, 0, 0, 0⟩
      "interest_rate" 1 [("Equities", -10), ("Bonds", 10)] hl]
    rw [hd]
    rw [if_neg (by norm_num [Portfolio.sum] : ¬(Portfolio.mk (-2) 0 0 0 0).sum = 0)]
    norm_num [Portfolio.sum, Portfolio.map, e1, e2]

/- ===== C2: clamping before renormalization ===== -/

/-- C2 (amended): only the v0.1 generate_suggested_portfolio clamps
negative shifted weights to zero before renormalizing — hence, whenever
the clipped total is positive, every output weight is nonnegative.  The
apply_rebalance variants do not clamp (see the counterexample). -/
theorem generate_suggested_portfolio_clamps (cluster_id : ℕ) (df : List (String × ℚ))
    (hpos : 0 < ((gspClipped cluster_id df).map (fun r => r.2)).sum) :
    ∀ r ∈ generate_suggested_portfolio cluster_id df, 0 ≤ r.2 := by
  intro r hr
  unfold generate_suggested_portfolio at hr
  obtain ⟨s, hs, rfl⟩ := List.mem_map.mp hr
  have hs2 : 0 ≤ s.2 := by
    unfold gspClipped at hs
    obtain ⟨u, _, rfl⟩ := List.mem_map.mp hs
    exact le_max_right _ _
  exact div_nonneg hs2 (le_of_lt hpos)

lemma gspClipped_pair : gspClipped 0 [("SPY", 1/2), ("GLD", 1/2)] =
    [("SPY", 47/100), ("GLD", 53/100)] := by
  have h1 : gspShifted 0 [("SPY", 1/2), ("GLD", 1/2)] =
      [("SPY", 47/100), ("GLD", 53/100)] := by
    simp [gspShifted, sensitivity, List.lookup, List.getD]
    norm_num
  have hm1 : max ((47:ℚ)/100) 0 = 47/100 := max_eq_left (by norm_num)
  have hm2 : max ((53:ℚ)/100) 0 = 53/100 := max_eq_left (by norm_num)
  unfold gspClipped
  rw [h1]
  simp [hm1, hm2]

/-- Instance for C2: on a two-row frame the clamped pipeline yields the
nonnegative SPY weight 0.47 for cluster 0. -/
theorem generate_suggested_portfolio_clamps_witness :
    (0 : ℚ) ≤ ((("SPY", (47/100 : ℚ))) : String × ℚ).2 :=
  generate_suggested_portfolio_clamps 0 [("SPY", 1/2), ("GLD", 1/2)]
    (by rw [gspClipped_pair]; norm_num)
    ("SPY", 47/100)
    (by
      unfold generate_suggested_portfolio
      rw [gspClipped_pair]
      simp only [List.map_cons, List.map_nil, List.sum_cons, List.sum_nil, List.mem_cons]
      refine Or.inl ?_
      rw [Prod.mk.injEq]
      norm_num)

/-- Counterexample for C2 as stated: apply_rebalance does not clamp — on
a portfolio pushed negative by the interest_rate rule at intensity 1 it
returns an output containing the negative weight -5, which clamping
before the (positive-total) renormalization would have made impossible. -/
theorem apply_rebalance_no_clamp_counterexample :
    apply_rebalance ⟨5, 95, 0, 0, 0⟩ "interest_rate" 1 = some ⟨-5, 105, 0, 0, 0⟩ ∧
    (Portfolio.mk (-5) 105 0 0 0).equities < 0 := by
  have hl : macro_rebalance_rules.lookup "interest_rate" =
      some [("Equities", -10), ("Bonds", 10)] := by rfl
  have hd : applyDeltas ⟨5, 95, 0, 0, 0⟩ [("Equities", -10), ("Bonds", 10)] 1 =
      ⟨-5, 105, 0, 0, 0⟩ := by
    simp [applyDeltas, Portfolio.addTo]
    norm_num
  constructor
  · have e1 : round2 (-5 : ℚ) = -5 := by
      rw [round2_lo _ (-500) (by norm_num) (by norm_num)]; norm_num
    have e2 : round2 (105 : ℚ) = 105 := by
      rw [round2_lo _ 10500 (by norm_num) (by norm_num)]; norm_num
    have e3 : round2 (0 : ℚ) = 0 := by
      rw [round2_lo _ 0 (by norm_num) (by norm_num)]; norm_num
    unfold apply_rebalance
    rw [applyRebalanceCore_eq_of_lookup macro_rebalance_rules ⟨5, 95, 0, 0, 0⟩
      "interest_rate" 1 [("Equities", -10), ("Bonds", 10)] hl]
    rw [hd]
    rw [if_neg (by norm_num [Portfolio.sum] : ¬(Portfolio.mk (-5) 105 0 0 0).sum = 0)]
    norm_num [Portfolio.sum, Portfolio.map, e1, e2, e3]
  · norm_num

/- ===== C1: rebalance output totals ===== -/

lemma apply_rebalance_v24_eq (w : Portfolio) (theme : String) (s : ℚ) :
    apply_rebalance_v24 w theme s =
      (if (postRuleWeights_v24 w theme s).sum = 0 then none
       else some ((postRuleWeights_v24 w theme s).map
         (fun x => round2 (x / (postRuleWeights_v24 w theme s).sum * 100)))) := by
  unfold apply_rebalance_v24 postRuleWeights_v24
  cases rebalance_rules.lookup theme <;> rfl

/-- C1 (amended): whenever the post-rule total is positive and the input
sums to 100, every apply_rebalance variant returns a portfolio whose
weights sum to 100 within the rounding residue of five two-decimal
roundings, 5 * 0.005 = 0.025 (the claimed 0.01 tolerance is too tight —
see the counterexample). -/
theorem rebalance_sum_within_rounding_residue :
    (∀ (rules : List (String × List (String × ℚ))) (base : Portfolio)
       (theme : String) (i : ℚ),
      base.sum = 100 → 0 < postRuleTotal rules base theme i →
      ∃ out, applyRebalanceCore rules base theme i = some out ∧
        |out.sum - 100| ≤ 1/40) ∧
    (∀ (weights : Portfolio) (theme : String) (severity : ℚ),
      weights.sum = 100 → 0 < postRuleTotal_v24 weights theme severity →
      ∃ out, apply_rebalance_v24 weights theme severity = some out ∧
        |out.sum - 100| ≤ 1/40) := by
  constructor
  · intro rules base theme i h100 hpos
    cases hl : rules.lookup theme with
    | none =>
        refine ⟨base, ?_, ?_⟩
        · unfold applyRebalanceCore
          rw [hl]
        · rw [h100]
          norm_num
    | some rule =>
        rw [postRuleTotal_eq rules base theme i rule hl] at hpos
        exact ⟨_, applyRebalanceCore_lookup_some rules base theme i rule hl (ne_of_gt hpos),
          roundedNormalizedSum (applyDeltas base rule i) (ne_of_gt hpos)⟩
  · intro w theme s _h100 hpos
    unfold postRuleTotal_v24 at hpos
    refine ⟨(postRuleWeights_v24 w theme s).map
        (fun x => round2 (x / (postRuleWeights_v24 w theme s).sum * 100)), ?_,
      roundedNormalizedSum (postRuleWeights_v24 w theme s) (ne_of_gt hpos)⟩
    rw [apply_rebalance_v24_eq w theme s, if_neg (ne_of_gt hpos)]

/-- Instance for C1: the interest_rate rule at intensity 1 on the
equal-weight portfolio yields 10/30/20/20/20, whose total is within the
residue bound of 100. -/
theorem rebalance_sum_within_rounding_residue_witness :
    apply_rebalance ⟨20, 20, 20, 20, 20⟩ "interest_rate" 1 = some ⟨10, 30, 20, 20, 20⟩ ∧
    |(Portfolio.mk 10 30 20 20 20).sum - 100| ≤ 1/40 := by
  have hl : macro_rebalance_rules.lookup "interest_rate" =
      some [("Equities", -10), ("Bonds", 10)] := by rfl
  have hd : applyDeltas ⟨20, 20, 20, 20, 20⟩ [("Equities", -10), ("Bonds", 10)] 1 =
      ⟨10, 30, 20, 20, 20⟩ := by
    simp [applyDeltas, Portfolio.addTo]
    norm_num
  have heval : apply_rebalance ⟨20, 20, 20, 20, 20⟩ "interest_rate" 1 =
      some ⟨10, 30, 20, 20, 20⟩ := by
    have e1 : round2 (10 : ℚ) = 10 := by
      rw [round2_lo _ 1000 (by norm_num) (by norm_num)]; norm_num
    have e2 : round2 (30 : ℚ) = 30 := by
      rw [round2_lo _ 3000 (by norm_num) (by norm_num)]; norm_num
    have e3 : round2 (20 : ℚ) = 20 := by
      rw [round2_lo _ 2000 (by norm_num) (by norm_num)]; norm_num
    unfold apply_rebalance
    rw [applyRebalanceCore_eq_of_lookup macro_rebalance_rules ⟨20, 20, 20, 20, 20⟩
      "interest_rate" 1 [("Equities", -10), ("Bonds", 10)] hl]
    rw [hd]
    rw [if_neg (by norm_num [Portfolio.sum] : ¬(Portfolio.mk 10 30 20 20 20).sum = 0)]
    norm_num [Portfolio.sum, Portfolio.map, e1, e2, e3]
  refine ⟨heval, ?_⟩
  obtain ⟨out, hout, hb⟩ := rebalance_sum_within_rounding_residue.1 macro_rebalance_rules
    ⟨20, 20, 20, 20, 20⟩ "interest_rate" 1 (by norm_num [Portfolio.sum])
    (by
      rw [postRuleTotal_eq macro_rebalance_rules ⟨20, 20, 20, 20, 20⟩ "interest_rate" 1
        [("Equities", -10), ("Bonds", 10)] hl, hd]
      norm_num [Portfolio.sum])
  have h2 : some (Portfolio.mk 10 30 20 20 20) = some out := by
    rw [← heval]
    exact hout
  rw [Option.some.injEq] at h2
  rw [← h2] at hb
  exact hb

/-- Counterexample for C1 as stated: a portfolio summing to exactly 100
with positive post-rule total whose rebalanced weights sum to 100.02 —
the deviation 0.02 exceeds the claimed 0.01 rounding tolerance (five
roundings can each contribute up to 0.005). -/
theorem rebalance_sum_tolerance_001_counterexample :
    (Portfolio.mk (199951/10000) (199951/10000) (199951/10000) (199951/10000)
      (200196/10000)).sum = 100 ∧
    0 < postRuleTotal macro_rebalance_rules
      ⟨199951/10000, 199951/10000, 199951/10000, 199951/10000, 200196/10000⟩ "tech" 0 ∧
    apply_rebalance ⟨199951/10000, 199951/10000, 199951/10000, 199951/10000, 200196/10000⟩
      "tech" 0 = some ⟨20, 20, 20, 20, 2002/100⟩ ∧
    ¬ |(Portfolio.mk 20 20 20 20 (2002/100)).sum - 100| ≤ 1/100 := by
  have hsum : (Portfolio.mk (199951/10000) (199951/10000) (199951/10000) (199951/10000)
      (200196/10000)).sum = 100 := by
    norm_num [Portfolio.sum]
  have hl : macro_rebalance_rules.lookup "tech" = some [("Equities", 10)] := by rfl
  refine ⟨hsum, ?_, ?_, ?_⟩
  · rw [postRuleTotal_eq macro_rebalance_rules _ "tech" 0 [("Equities", 10)] hl,
      applyDeltas_zero, hsum]
    norm_num
  · have e1 : round2 (199951/10000 : ℚ) = 20 := by
      rw [round2_hi _ 2000 (by norm_num) (by norm_num)]; norm_num
    have e2 : round2 (50049/2500 : ℚ) = 1001/50 := by
      rw [round2_hi _ 2002 (by norm_num) (by norm_num)]; norm_num
    unfold apply_rebalance
    rw [applyRebalanceCore_eq_of_lookup macro_rebalance_rules _ "tech" 0
      [("Equities", 10)] hl]
    rw [applyDeltas_zero, hsum]
    rw [if_neg (by norm_num : ¬(100:ℚ) = 0)]
    norm_num [Portfolio.map, e1, e2]
  · rw [show (Portfolio.mk 20 20 20 20 (2002/100)).sum = 10002/100 by norm_num [Portfolio.sum]]
    rw [show (10002:ℚ)/100 - 100 = 1/50 by norm_num]
    rw [abs_of_nonneg (by norm_num : (0:ℚ) ≤ 1/50)]
    norm_num

/- ===== C10: the floor-20 scorer always passes short-horizon gates ===== -/

lemma classify_news_v24_macro_mem (text theme : String)
    (h : classify_news_v24 text = ("macro", theme)) :
    theme ∈ ["interest_rate", "energy", "tech", "geopolitical", "fiscal",
             "currency", "labor", "crypto", "political_shock"] := by
  unfold classify_news_v24 at h
  split_ifs at h with hirr
  · simp at h
  · cases hm : micro_themes.find? (hitsTheme (lowerChars text)) with
    | some kv =>
        rw [hm] at h
        simp at h
    | none =>
        rw [hm] at h
        cases hM : macro_themes_v24.find? (hitsTheme (lowerChars text)) with
        | some kv =>
            rw [hM] at h
            simp at h
            have hkmem := List.mem_of_find?_eq_some hM
            rw [← h]
            fin_cases hkmem <;> decide
        | none =>
            rw [hM] at h
            simp at h

lemma apply_rebalance_isSome (base : Portfolio) (theme : String) (i : ℚ)
    (rule : List (String × ℚ))
    (hl : macro_rebalance_rules.lookup theme = some rule)
    (hne : (applyDeltas base rule i).sum ≠ 0) :
    (apply_rebalance base theme i).isSome = true := by
  unfold apply_rebalance
  rw [applyRebalanceCore_lookup_some macro_rebalance_rules base theme i rule hl hne]
  rfl

lemma apply_rebalance_isSome_of_macro (theme : String)
    (hm : theme ∈ ["interest_rate", "energy", "tech", "geopolitical", "fiscal",
                   "currency", "labor", "crypto", "political_shock"])
    (w : Portfolio) (i : ℚ) (hw : w.sum = 100) (hi0 : 0 ≤ i) (hi1 : i ≤ 1) :
    (apply_rebalance w theme i).isSome = true := by
  obtain ⟨e, b, t, c, m⟩ := w
  have hw5 : e + b + t + c + m = 100 := hw
  fin_cases hm
  · exact apply_rebalance_isSome _ _ i [("Equities", -10), ("Bonds", 10)] (by rfl)
      (by simp [applyDeltas, Portfolio.addTo, Portfolio.sum]; intro hc; linarith)
  · exact apply_rebalance_isSome _ _ i [("Commodities", 15), ("Equities", -5)] (by rfl)
      (by simp [applyDeltas, Portfolio.addTo, Portfolio.sum]; intro hc; linarith)
  · exact apply_rebalance_isSome _ _ i [("Equities", 10)] (by rfl)
      (by simp [applyDeltas, Portfolio.addTo, Portfolio.sum]; intro hc; linarith)
  · exact apply_rebalance_isSome _ _ i
      [("Bonds", 10), ("Commodities", 5), ("Equities", -10)] (by rfl)
      (by simp [applyDeltas, Portfolio.addTo, Portfolio.sum]; intro hc; linarith)
  · exact apply_rebalance_isSome _ _ i [("Equities", 10)] (by rfl)
      (by simp [applyDeltas, Portfolio.addTo, Portfolio.sum]; intro hc; linarith)
  · exact apply_rebalance_isSome _ _ i [("Bonds", 5), ("Crypto", -10)] (by rfl)
      (by simp [applyDeltas, Portfolio.addTo, Portfolio.sum]; intro hc; linarith)
  · exact apply_rebalance_isSome _ _ i [("Equities", -5), ("Bonds", 5)] (by rfl)
      (by simp [applyDeltas, Portfolio.addTo, Portfolio.sum]; intro hc; linarith)
  · exact apply_rebalance_isSome _ _ i [("Crypto", 15)] (by rfl)
      (by simp [applyDeltas, Portfolio.addTo, Portfolio.sum]; intro hc; linarith)
  · exact apply_rebalance_isSome _ _ i [("Bonds", 10), ("Equities", -10)] (by rfl)
      (by simp [applyDeltas, Portfolio.addTo, Portfolio.sum]; intro hc; linarith)

/-- C10: the floor-20 scorer of the v2.4 horizon-aware app always lands
in [20, 100] — even with no severity keyword — so for horizons of at most
1 year every macro-classified headline passes the horizon gate and the
analysis flow produces a rebalance recommendation. -/
theorem impact_floor_twenty_gate :
    (∀ text : String,
      20 ≤ compute_impact_score_v24 text ∧ compute_impact_score_v24 text ≤ 100) ∧
    (∀ (text : String) (weights : Portfolio) (h : ℚ),
      h ≤ 1 → weights.sum = 100 → (classify_news_v24 text).1 = "macro" →
      horizon_threshold (compute_impact_score_v24 text) h = true ∧
      (analyze_v24 text weights h).isSome = true) := by
  refine ⟨fun text => impact_v24_bounds text, ?_⟩
  intro text w h hh hw hmac
  have hb := impact_v24_bounds text
  have hgate : horizon_threshold (compute_impact_score_v24 text) h = true := by
    unfold horizon_threshold
    rw [if_pos hh]
    exact decide_eq_true hb.1
  refine ⟨hgate, ?_⟩
  unfold analyze_v24
  rw [if_neg (show ¬(classify_news_v24 text).1 = "irrelevant" by
    rw [hmac]; decide)]
  rw [if_pos hgate]
  have hpair : classify_news_v24 text = ("macro", (classify_news_v24 text).2) := by
    rw [← hmac]
  have hmem := classify_news_v24_macro_mem text (classify_news_v24 text).2 hpair
  have hi0 : 0 ≤ compute_impact_score_v24 text / 100 :=
    div_nonneg (by linarith [hb.1]) (by norm_num)
  have hi1 : compute_impact_score_v24 text / 100 ≤ 1 := by
    rw [div_le_one (by norm_num : (0:ℚ) < 100)]
    exact hb.2
  exact apply_rebalance_isSome_of_macro (classify_news_v24 text).2 hmem w _ hw hi0 hi1

/-- Instance for C10: a keyword-free macro headline still scores 20 and,
at horizon 1, passes the gate and produces a recommendation. -/
theorem impact_floor_twenty_gate_witness :
    horizon_threshold (compute_impact_score_v24 "fed raises rates") 1 = true ∧
    (analyze_v24 "fed raises rates" ⟨20, 20, 20, 20, 20⟩ 1).isSome = true :=
  impact_floor_twenty_gate.2 "fed raises rates" ⟨20, 20, 20, 20, 20⟩ 1
    (by norm_num) (by norm_num [Portfolio.sum]) (by decide)
